import Mathlib

/-!
Verification development for the multi-tier SIMD base64 codec
(Modules/base64_simd.h and the second compiled-in copy of the same header).

Vectors of a SIMD register are shallowly embedded as byte functions
`Nat → Nat` (byte index → byte value, little-endian lane layout); every
intrinsic used by the kernels is given its architectural meaning on that
representation, with machine-integer wraparound made explicit via `% 256`,
`% 65536`, `% 2 ^ 32` and signedness made explicit via conversions to `Int`.
-/

namespace B64

/-! ## Byte and lane primitives -/

/-- Signed reading of a byte (int8 reinterpretation). -/
def toSigned8 (x : Nat) : Int :=
  if x % 256 < 128 then (x % 256 : Int) else (x % 256 : Int) - 256

/-- Signed reading of a 16-bit lane (int16 reinterpretation). -/
def toSigned16 (x : Nat) : Int :=
  if x % 65536 < 32768 then (x % 65536 : Int) else (x % 65536 : Int) - 65536

/-- Signed saturation to the int16 range, as performed by vpmaddubsw. -/
def sat16 (x : Int) : Int := max (-32768) (min 32767 x)

/-- Unsigned 16-bit reinterpretation of a signed result. -/
def toUnsigned16 (x : Int) : Nat := (x % 65536).toNat

/-- Unsigned byte reinterpretation of an int8 table value (so -1 reads as 255). -/
def intByte (x : Int) : Nat := (x % 256).toNat

/-- 16-bit lane j of a byte vector (little-endian byte pairing). -/
def lane16 (v : Nat → Nat) (j : Nat) : Nat := v (2 * j) + 256 * v (2 * j + 1)

/-- Byte view of a vector given by its 16-bit lanes (little-endian). -/
def bytesOf16 (f : Nat → Nat) : Nat → Nat :=
  fun i => f (i / 2) / 256 ^ (i % 2) % 256

/-- Byte view of a vector given by its 32-bit lanes (little-endian). -/
def bytesOf32 (f : Nat → Nat) : Nat → Nat :=
  fun i => f (i / 4) / 256 ^ (i % 4) % 256

/-! ## AVX-512 intrinsics used by the kernels -/

/-- Models _mm512_loadu_si512 over a caller buffer of uint8_t. -/
def loadu_si512 (p : Nat → Nat) : Nat → Nat := fun i => p i % 256

/-- Models _mm512_set1_epi32: byte i is byte (i mod 4) of the 32-bit constant. -/
def set1_epi32 (c : Nat) : Nat → Nat := fun i => c >>> (8 * (i % 4)) % 256

/-- Models _mm512_set1_epi8. -/
def set1_epi8 (c : Nat) : Nat → Nat := fun _ => c % 256

/-- Models _mm512_and_si512 (bitwise, hence bytewise). -/
def vand512 (a b : Nat → Nat) : Nat → Nat := fun i => a i &&& b i

/-- Models _mm512_or_si512 (bitwise, hence bytewise). -/
def vor512 (a b : Nat → Nat) : Nat → Nat := fun i => a i ||| b i

/-- Models _mm512_mulhi_epu16: per 16-bit lane, high half of the unsigned product. -/
def mulhi_epu16 (a b : Nat → Nat) : Nat → Nat :=
  bytesOf16 fun j => lane16 a j * lane16 b j / 65536

/-- Models _mm512_mullo_epi16: per 16-bit lane, low half of the product. -/
def mullo_epi16 (a b : Nat → Nat) : Nat → Nat :=
  bytesOf16 fun j => lane16 a j * lane16 b j % 65536

/-- Models _mm512_permutexvar_epi8 (vpermb): full cross-lane byte gather,
only the low 6 bits of each index byte are used. -/
def permutexvar_epi8 {α : Type} (idx : Nat → Nat) (src : Nat → α) : Nat → α :=
  fun i => src (idx i % 64)

/-- Models _mm512_sub_epi8 (bytewise wraparound subtraction). -/
def sub_epi8 (a b : Nat → Nat) : Nat → Nat :=
  fun i => (a i % 256 + 256 - b i % 256) % 256

/-- Models _mm512_maddubs_epi16 (vpmaddubsw): a is read as unsigned bytes,
b as signed bytes; adjacent products summed with signed 16-bit saturation. -/
def maddubs_epi16 (a b : Nat → Nat) : Nat → Nat :=
  bytesOf16 fun j =>
    toUnsigned16 (sat16 ((a (2 * j) % 256 : Nat) * toSigned8 (b (2 * j)) +
      (a (2 * j + 1) % 256 : Nat) * toSigned8 (b (2 * j + 1))))

/-- Models _mm512_madd_epi16 (vpmaddwd): signed 16-bit lanes, adjacent
products summed into a 32-bit lane. -/
def madd_epi16 (a b : Nat → Nat) : Nat → Nat :=
  bytesOf32 fun k =>
    ((toSigned16 (lane16 a (2 * k)) * toSigned16 (lane16 b (2 * k)) +
      toSigned16 (lane16 a (2 * k + 1)) * toSigned16 (lane16 b (2 * k + 1))) % (2 ^ 32 : Int)).toNat

/-! ## Alphabet tables (base64_simd.h) -/

/-- The 64-character base64 encode table _b64_table. -/
def _b64_table : List Nat :=
  "ABCDEFGHIJKLMNOPQRSTUVWXYZabcdefghijklmnopqrstuvwxyz0123456789+/".toList.map Char.toNat

/-- The 128-entry decode table _b64_decode_table (ASCII to 6-bit value, -1 invalid). -/
def _b64_decode_table : List Int :=
  [-1, -1, -1, -1, -1, -1, -1, -1, -1, -1, -1, -1, -1, -1, -1, -1,
   -1, -1, -1, -1, -1, -1, -1, -1, -1, -1, -1, -1, -1, -1, -1, -1,
   -1, -1, -1, -1, -1, -1, -1, -1, -1, -1, -1, 62, -1, -1, -1, 63,
   52, 53, 54, 55, 56, 57, 58, 59, 60, 61, -1, -1, -1, -1, -1, -1,
   -1,  0,  1,  2,  3,  4,  5,  6,  7,  8,  9, 10, 11, 12, 13, 14,
   15, 16, 17, 18, 19, 20, 21, 22, 23, 24, 25, -1, -1, -1, -1, -1,
   -1, 26, 27, 28, 29, 30, 31, 32, 33, 34, 35, 36, 37, 38, 39, 40,
   41, 42, 43, 44, 45, 46, 47, 48, 49, 50, 51, -1, -1, -1, -1, -1]

/-! ## AVX-512 encode kernel (base64_encode_48_avx512) -/

/-- The shuf_input permutation of base64_encode_48_avx512, written in
little-endian byte order (the source lists the same 64 bytes through
_mm512_set_epi8, whose arguments run from byte 63 down to byte 0):
for triplet n the bytes 4n..4n+3 are [3n+1, 3n, 3n+2, 3n+1]. -/
def shuf_input : List Nat :=
  [ 1,  0,  2,  1,   4,  3,  5,  4,   7,  6,  8,  7,  10,  9, 11, 10,
   13, 12, 14, 13,  16, 15, 17, 16,  19, 18, 20, 19,  22, 21, 23, 22,
   25, 24, 26, 25,  28, 27, 29, 28,  31, 30, 32, 31,  34, 33, 35, 34,
   37, 36, 38, 37,  40, 39, 41, 40,  43, 42, 44, 43,  46, 45, 47, 46]

/-- Reshuffled triplet bytes of the encode kernel (local variable triplets). -/
def _avx512_enc_triplets (inp : Nat → Nat) : Nat → Nat :=
  permutexvar_epi8 (fun i => shuf_input.getD i 0) (loadu_si512 inp)

/-- Sextet index bytes of the encode kernel (local variable indices,
built by the multiply-mask trick from t0 and t1). -/
def _avx512_enc_indices (inp : Nat → Nat) : Nat → Nat :=
  let triplets := _avx512_enc_triplets inp
  let t0 := mulhi_epu16 (vand512 triplets (set1_epi32 0x0FC0FC00)) (set1_epi32 0x04000040)
  let t1 := mullo_epi16 (vand512 triplets (set1_epi32 0x003F03F0)) (set1_epi32 0x01000010)
  vor512 t0 t1

/-- Encode 48 bytes to 64 base64 characters (base64_encode_48_avx512). -/
def base64_encode_48_avx512 (inp : Nat → Nat) : Nat → Nat :=
  permutexvar_epi8 (_avx512_enc_indices inp) (fun i => _b64_table.getD i 0)

/-! ## AVX-512 decode kernel (base64_decode_64_avx512, Modules/base64_simd.h copy) -/

/-- The pack_shuf permutation of the decode kernel in Modules/base64_simd.h,
in little-endian byte order: output triplet n takes bytes [4n+2, 4n+1, 4n]
of the merged dwords; the upper 16 bytes (value -1, i.e. 255) are masked
out by the 48-byte store. -/
def pack_shuf : List Nat :=
  [ 2,  1,  0,   6,  5,  4,  10,  9,  8,  14, 13, 12,
   18, 17, 16,  22, 21, 20,  26, 25, 24,  30, 29, 28,
   34, 33, 32,  38, 37, 36,  42, 41, 40,  46, 45, 44,
   50, 49, 48,  54, 53, 52,  58, 57, 56,  62, 61, 60,
   255, 255, 255, 255, 255, 255, 255, 255,
   255, 255, 255, 255, 255, 255, 255, 255]

/-- Table-lookup stage of the decode kernel: blend of the two 64-byte
half-table permutes, selected by the unsigned comparison input >= 64. -/
def _avx512_dec_values (input : Nat → Nat) : Nat → Int :=
  let table_lo := fun i => (_b64_decode_table.take 64).getD i 0
  let table_hi := fun i => (_b64_decode_table.drop 64).getD i 0
  let idx_lo := input
  let idx_hi := sub_epi8 input (set1_epi8 64)
  let val_lo := permutexvar_epi8 idx_lo table_lo
  let val_hi := permutexvar_epi8 idx_hi table_hi
  fun i => if 64 ≤ input i then val_hi i else val_lo i

/-- Bit-packing stage of the decode kernel: vpmaddubsw pairs sextets into
12-bit words, vpmaddwd pairs those into 24-bit dwords. -/
def _avx512_dec_merge2 (values : Nat → Int) : Nat → Nat :=
  let valuesU := fun i => intByte (values i)
  let merge1 := maddubs_epi16 valuesU (set1_epi32 0x01400140)
  madd_epi16 merge1 (set1_epi32 0x00011000)

/-- Decode 64 base64 characters to 48 bytes (base64_decode_64_avx512 in
Modules/base64_simd.h). Returns none where the C code returns -1; the
returned function carries the 48 stored bytes (the C store is masked to
the low 48 bytes). The second guard mirrors the source exactly: it is the
signed byte comparison input > 127 of _mm512_cmpgt_epi8_mask. -/
def base64_decode_64_avx512 (inp : Nat → Nat) : Option (Nat → Nat) :=
  let input := loadu_si512 inp
  if (List.range 64).any (fun i => input i == 61) then none
  else if (List.range 64).any (fun i => decide (127 < toSigned8 (input i))) then none
  else
    let values := _avx512_dec_values input
    if (List.range 64).any (fun i => decide (values i < 0)) then none
    else
      some (permutexvar_epi8 (fun i => pack_shuf.getD i 0) (_avx512_dec_merge2 values))

/-! ## The second compiled-in copy (src/unnamed/part_000) -/

/-- The pack_shuf permutation of the decode kernel in the second copy of the
header (src/unnamed/part_000), in little-endian byte order: its set_epi8
listing places bytes [4n, 4n+1, 4n+2] of word n at output triplet n. -/
def pack_shuf_copy2 : List Nat :=
  [ 0,  1,  2,   4,  5,  6,   8,  9, 10,  12, 13, 14,
   16, 17, 18,  20, 21, 22,  24, 25, 26,  28, 29, 30,
   32, 33, 34,  36, 37, 38,  40, 41, 42,  44, 45, 46,
   48, 49, 50,  52, 53, 54,  56, 57, 58,  60, 61, 62,
   255, 255, 255, 255, 255, 255, 255, 255,
   255, 255, 255, 255, 255, 255, 255, 255]

/-- Decode kernel base64_decode_64_avx512 as compiled in src/unnamed/part_000:
identical to the Modules copy except for its pack_shuf table. -/
def base64_decode_64_avx512_copy2 (inp : Nat → Nat) : Option (Nat → Nat) :=
  let input := loadu_si512 inp
  if (List.range 64).any (fun i => input i == 61) then none
  else if (List.range 64).any (fun i => decide (127 < toSigned8 (input i))) then none
  else
    let values := _avx512_dec_values input
    if (List.range 64).any (fun i => decide (values i < 0)) then none
    else
      some (permutexvar_epi8 (fun i => pack_shuf_copy2.getD i 0) (_avx512_dec_merge2 values))

/-! ## AVX-512 driver loops -/

/-- Overlay of a block write: bytes base..base+n-1 come from the block,
everything else from the previous output state. -/
def writeBlock (out : Nat → Nat) (base n : Nat) (blk : Nat → Nat) : Nat → Nat :=
  fun x => if base ≤ x ∧ x < base + n then blk (x - base) else out x

/-- The encode loop of base64_encode_avx512vbmi after the given number of
blocks (each full 48-byte block i is encoded to output bytes 64i..64i+63). -/
def base64_encode_avx512vbmi_loop (B out : Nat → Nat) : Nat → Nat → Nat
  | 0 => out
  | b + 1 =>
    writeBlock (base64_encode_avx512vbmi_loop B out b) (64 * b) 64
      (base64_encode_48_avx512 (fun t => B (48 * b + t)))

/-- base64_encode_avx512vbmi: encodes every full 48-byte block and returns
the number of input bytes processed together with the output state. -/
def base64_encode_avx512vbmi (B : Nat → Nat) (in_len : Nat) (out : Nat → Nat) :
    Nat × (Nat → Nat) :=
  (in_len / 48 * 48, base64_encode_avx512vbmi_loop B out (in_len / 48))

/-- The decode loop of base64_decode_avx512vbmi from block index i with the
given number of remaining blocks; an aborting block stops the loop at i*64
consumed bytes. -/
def base64_decode_avx512vbmi_loop (B : Nat → Nat) :
    (Nat → Nat) → Nat → Nat → Nat × (Nat → Nat)
  | out, i, 0 => (64 * i, out)
  | out, i, fuel + 1 =>
    match base64_decode_64_avx512 (fun t => B (64 * i + t)) with
    | none => (64 * i, out)
    | some blk =>
      base64_decode_avx512vbmi_loop B (writeBlock out (48 * i) 48 blk) (i + 1) fuel

/-- base64_decode_avx512vbmi: decodes full 64-char blocks until one aborts,
returning the number of input bytes processed and the output state. -/
def base64_decode_avx512vbmi (B : Nat → Nat) (in_len : Nat) (out : Nat → Nat) :
    Nat × (Nat → Nat) :=
  base64_decode_avx512vbmi_loop B out 0 (in_len / 64)

/-! ## Scalar reference encoder -/

/-- Sextet i of the scalar reference: the four 6-bit fields of the big-endian
24-bit packing of trio i / 4. -/
def refSextet (B : Nat → Nat) (i : Nat) : Nat :=
  let n := i / 4
  ((B (3 * n) % 256) * 65536 + (B (3 * n + 1) % 256) * 256 + B (3 * n + 2) % 256) >>>
    (6 * (3 - i % 4)) % 64

/-- Modelled from the spec: the scalar reference kernel itself is not among
the provided sources (it lives in the binascii module body), so its per
character encode formula is taken from the spec: pack each complete 3-byte
group big-endian into 24 bits, extract the four 6-bit indices by shift and
mask, and look each up in the 64-character encode table. -/
def scalar_encode_char (B : Nat → Nat) (i : Nat) : Nat :=
  _b64_table.getD (refSextet B i) 0

/-! ## NEON intrinsics used by the kernels -/

/-- Models vld1q_u8 over a uint8_t buffer. -/
def vld1q_u8 (p : Nat → Nat) : Nat → Nat := fun i => p i % 256

/-- Models vqtbl1q_u8: byte gather from a 16-byte table, out-of-range
index bytes produce 0. -/
def vqtbl1q_u8 (tbl idx : Nat → Nat) : Nat → Nat :=
  fun i => if idx i % 256 < 16 then tbl (idx i % 256) else 0

/-- Models vget_low_u16 (lanes 0..3 of a uint16x8). -/
def vget_low_u16 (v : Nat → Nat) : Nat → Nat := v

/-- Models vget_high_u16 (lanes 4..7 of a uint16x8). -/
def vget_high_u16 (v : Nat → Nat) : Nat → Nat := fun j => v (j + 4)

/-- Models vuzp1_u16 on uint16x4 halves: [a0, a2, b0, b2]. -/
def vuzp1_u16 (a b : Nat → Nat) : Nat → Nat :=
  fun j => if j < 2 then a (2 * j) else b (2 * (j - 2))

/-- Models vuzp2_u16 on uint16x4 halves: [a1, a3, b1, b3]. -/
def vuzp2_u16 (a b : Nat → Nat) : Nat → Nat :=
  fun j => if j < 2 then a (2 * j + 1) else b (2 * (j - 2) + 1)

/-- Models vshr_n_u16. -/
def vshr_n_u16 (v : Nat → Nat) (n : Nat) : Nat → Nat := fun j => (v j % 65536) >>> n

/-- Models vand_u16. -/
def vand_u16 (a b : Nat → Nat) : Nat → Nat := fun j => a j &&& b j

/-- Models vdup_n_u16. -/
def vdup_n_u16 (c : Nat) : Nat → Nat := fun _ => c % 65536

/-- Models vzip1_u16 on uint16x4: [a0, b0, a1, b1]. -/
def vzip1_u16 (a b : Nat → Nat) : Nat → Nat :=
  fun j => if j % 2 = 0 then a (j / 2) else b (j / 2)

/-- Models vzip2_u16 on uint16x4: [a2, b2, a3, b3]. -/
def vzip2_u16 (a b : Nat → Nat) : Nat → Nat :=
  fun j => if j % 2 = 0 then a (2 + j / 2) else b (2 + j / 2)

/-- Models vcombine_u16: lanes 0..3 from lo, 4..7 from hi. -/
def vcombine_u16 (lo hi : Nat → Nat) : Nat → Nat :=
  fun j => if j < 4 then lo j else hi (j - 4)

/-- Models vmovn_u16: narrow each 16-bit lane to its low byte. -/
def vmovn_u16 (v : Nat → Nat) : Nat → Nat := fun j => v j % 256

/-- Models vcombine_u8: bytes 0..7 from lo, 8..15 from hi. -/
def vcombine_u8 (lo hi : Nat → Nat) : Nat → Nat :=
  fun i => if i < 8 then lo i else hi (i - 8)

/-- Models vdupq_n_u8. -/
def vdupq_n_u8 (c : Nat) : Nat → Nat := fun _ => c % 256

/-- Models vceqq_u8: bytewise equality mask (255 or 0). -/
def vceqq_u8 (a b : Nat → Nat) : Nat → Nat :=
  fun i => if a i % 256 = b i % 256 then 255 else 0

/-- Models vcgeq_u8: bytewise unsigned >= mask. -/
def vcgeq_u8 (a b : Nat → Nat) : Nat → Nat :=
  fun i => if b i % 256 ≤ a i % 256 then 255 else 0

/-- Models vcleq_u8: bytewise unsigned <= mask. -/
def vcleq_u8 (a b : Nat → Nat) : Nat → Nat :=
  fun i => if a i % 256 ≤ b i % 256 then 255 else 0

/-- Models vandq_u8. -/
def vandq_u8 (a b : Nat → Nat) : Nat → Nat := fun i => a i &&& b i

/-- Models vaddq_u8 (wraparound). -/
def vaddq_u8 (a b : Nat → Nat) : Nat → Nat := fun i => (a i + b i) % 256

/-- Models vsubq_u8 (wraparound). -/
def vsubq_u8 (a b : Nat → Nat) : Nat → Nat :=
  fun i => (a i % 256 + 256 - b i % 256) % 256

/-- Models vbslq_u8: bitwise select (m AND a) OR (NOT m AND b). -/
def vbslq_u8 (m a b : Nat → Nat) : Nat → Nat :=
  fun i => (m i % 256 &&& a i) ||| ((m i % 256 ^^^ 255) &&& b i)

/-- Models vmaxvq_u8: horizontal maximum over the 16 bytes. -/
def vmaxvq_u8 (v : Nat → Nat) : Nat :=
  (List.range 16).foldl (fun m i => max m (v i % 256)) 0

/-- Models vuzp_u8 on uint8x8 halves: component 0 = even bytes, 1 = odd. -/
def vuzp_u8_val0 (a b : Nat → Nat) : Nat → Nat :=
  fun i => if i < 4 then a (2 * i) else b (2 * (i - 4))

/-- Odd-byte component of vuzp_u8. -/
def vuzp_u8_val1 (a b : Nat → Nat) : Nat → Nat :=
  fun i => if i < 4 then a (2 * i + 1) else b (2 * (i - 4) + 1)

/-- Models vmovl_u8: widen 8 bytes to 8 16-bit lanes. -/
def vmovl_u8 (v : Nat → Nat) : Nat → Nat := fun j => v j % 256

/-- Models vmlal_u8: acc + a*b with byte operands widened to 16 bits. -/
def vmlal_u8 (acc a b : Nat → Nat) : Nat → Nat :=
  fun j => (acc j + a j % 256 * (b j % 256)) % 65536

/-- Models vdup_n_u8 (64-bit dup, used as multiplier). -/
def vdup_n_u8 (c : Nat) : Nat → Nat := fun _ => c % 256

/-- Models vmovl_u16: widen 4 16-bit lanes to 4 32-bit lanes. -/
def vmovl_u16 (v : Nat → Nat) : Nat → Nat := fun k => v k % 65536

/-- Models vshlq_n_u32. -/
def vshlq_n_u32 (v : Nat → Nat) (n : Nat) : Nat → Nat :=
  fun k => v k <<< n % (2 ^ 32)

/-- Models vorrq_u32. -/
def vorrq_u32 (a b : Nat → Nat) : Nat → Nat := fun k => a k ||| b k

/-! ## NEON encode kernel (base64_encode_12_neon) -/

/-- The static shuf_tbl of base64_encode_12_neon. -/
def neon_shuf_tbl : List Nat := [1, 0, 2, 1, 4, 3, 5, 4, 7, 6, 8, 7, 10, 9, 11, 10]

/-- The static reorder_tbl of base64_encode_12_neon. -/
def neon_reorder_tbl : List Nat := [0, 1, 4, 5, 2, 3, 6, 7, 8, 9, 12, 13, 10, 11, 14, 15]

/-- Sextet index bytes of the NEON encode kernel (local variable indices
after the final vqtbl1q reorder). -/
def _neon_enc_indices (inp : Nat → Nat) : Nat → Nat :=
  let input := vld1q_u8 inp
  let reshuffled := vqtbl1q_u8 input (fun i => neon_shuf_tbl.getD i 0)
  let in16 := lane16 reshuffled
  let even := vuzp1_u16 (vget_low_u16 in16) (vget_high_u16 in16)
  let odd := vuzp2_u16 (vget_low_u16 in16) (vget_high_u16 in16)
  let s0 := vshr_n_u16 even 10
  let s1 := vand_u16 (vshr_n_u16 even 4) (vdup_n_u16 0x3F)
  let s2 := vand_u16 (vshr_n_u16 odd 6) (vdup_n_u16 0x3F)
  let s3 := vand_u16 odd (vdup_n_u16 0x3F)
  let s01_lo := vzip1_u16 s0 s1
  let s01_hi := vzip2_u16 s0 s1
  let s23_lo := vzip1_u16 s2 s3
  let s23_hi := vzip2_u16 s2 s3
  let indices_lo := vcombine_u16 s01_lo s23_lo
  let indices_hi := vcombine_u16 s01_hi s23_hi
  let idx_lo := vmovn_u16 indices_lo
  let idx_hi := vmovn_u16 indices_hi
  let indices := vcombine_u8 idx_lo idx_hi
  vqtbl1q_u8 indices (fun i => neon_reorder_tbl.getD i 0)

/-- Arithmetic range mapping of the NEON encode kernel applied to the index
vector: base offset 65, +6 for indices >= 26, -75 for >= 52, -15 for = 62,
-12 for = 63, then added to the indices. -/
def _neon_enc_ascii (indices : Nat → Nat) : Nat → Nat :=
  let offset0 := vdupq_n_u8 65
  let ge26 := vcgeq_u8 indices (vdupq_n_u8 26)
  let offset1 := vaddq_u8 offset0 (vandq_u8 ge26 (vdupq_n_u8 6))
  let ge52 := vcgeq_u8 indices (vdupq_n_u8 52)
  let offset2 := vsubq_u8 offset1 (vandq_u8 ge52 (vdupq_n_u8 75))
  let eq62 := vceqq_u8 indices (vdupq_n_u8 62)
  let offset3 := vsubq_u8 offset2 (vandq_u8 eq62 (vdupq_n_u8 15))
  let eq63 := vceqq_u8 indices (vdupq_n_u8 63)
  let offset := vsubq_u8 offset3 (vandq_u8 eq63 (vdupq_n_u8 12))
  vaddq_u8 indices offset

/-- Encode 12 bytes to 16 base64 characters (base64_encode_12_neon). -/
def base64_encode_12_neon (inp : Nat → Nat) : Nat → Nat :=
  _neon_enc_ascii (_neon_enc_indices inp)

/-! ## NEON decode kernel (base64_decode_16_neon) -/

/-- The static pack_tbl of base64_decode_16_neon. -/
def neon_pack_tbl : List Nat :=
  [2, 1, 0, 6, 5, 4, 10, 9, 8, 14, 13, 12, 0xFF, 0xFF, 0xFF, 0xFF]

/-- Range-classification stage of the NEON decode kernel: ASCII to 6-bit
value, invalid characters keep the 0xFF sentinel. -/
def _neon_dec_values (input : Nat → Nat) : Nat → Nat :=
  let v0 := vdupq_n_u8 0xFF
  let is_upper := vandq_u8 (vcgeq_u8 input (vdupq_n_u8 65)) (vcleq_u8 input (vdupq_n_u8 90))
  let v1 := vbslq_u8 is_upper (vsubq_u8 input (vdupq_n_u8 65)) v0
  let is_lower := vandq_u8 (vcgeq_u8 input (vdupq_n_u8 97)) (vcleq_u8 input (vdupq_n_u8 122))
  let v2 := vbslq_u8 is_lower (vsubq_u8 input (vdupq_n_u8 71)) v1
  let is_digit := vandq_u8 (vcgeq_u8 input (vdupq_n_u8 48)) (vcleq_u8 input (vdupq_n_u8 57))
  let v3 := vbslq_u8 is_digit (vaddq_u8 input (vdupq_n_u8 4)) v2
  let v4 := vbslq_u8 (vceqq_u8 input (vdupq_n_u8 43)) (vdupq_n_u8 62) v3
  vbslq_u8 (vceqq_u8 input (vdupq_n_u8 47)) (vdupq_n_u8 63) v4

/-- Decode 16 base64 characters to 12 bytes (base64_decode_16_neon).
Returns none where the C code returns -1. -/
def base64_decode_16_neon (inp : Nat → Nat) : Option (Nat → Nat) :=
  let input := vld1q_u8 inp
  if vmaxvq_u8 (vceqq_u8 input (vdupq_n_u8 61)) ≠ 0 then none
  else
    let values := _neon_dec_values input
    if vmaxvq_u8 (vcgeq_u8 values (vdupq_n_u8 64)) ≠ 0 then none
    else
      let evens := vuzp_u8_val0 (fun i => values i) (fun i => values (i + 8))
      let odds := vuzp_u8_val1 (fun i => values i) (fun i => values (i + 8))
      let merged := vmlal_u8 (vmovl_u8 odds) evens (vdup_n_u8 64)
      let m_even := vuzp1_u16 (vget_low_u16 merged) (vget_high_u16 merged)
      let m_odd := vuzp2_u16 (vget_low_u16 merged) (vget_high_u16 merged)
      let combined := vorrq_u32 (vshlq_n_u32 (vmovl_u16 m_even) 12) (vmovl_u16 m_odd)
      let bytes := bytesOf32 combined
      some (vqtbl1q_u8 bytes (fun i => neon_pack_tbl.getD i 0))

/-! ## NEON driver loops -/

/-- The encode loop of base64_encode_neon after the given number of blocks. -/
def base64_encode_neon_loop (B out : Nat → Nat) : Nat → Nat → Nat
  | 0 => out
  | b + 1 =>
    writeBlock (base64_encode_neon_loop B out b) (16 * b) 16
      (base64_encode_12_neon (fun t => B (12 * b + t)))

/-- base64_encode_neon: encodes every full 12-byte block and returns the
number of input bytes processed together with the output state. -/
def base64_encode_neon (B : Nat → Nat) (in_len : Nat) (out : Nat → Nat) :
    Nat × (Nat → Nat) :=
  (in_len / 12 * 12, base64_encode_neon_loop B out (in_len / 12))

/-- The decode loop of base64_decode_neon from block index i. -/
def base64_decode_neon_loop (B : Nat → Nat) :
    (Nat → Nat) → Nat → Nat → Nat × (Nat → Nat)
  | out, i, 0 => (16 * i, out)
  | out, i, fuel + 1 =>
    match base64_decode_16_neon (fun t => B (16 * i + t)) with
    | none => (16 * i, out)
    | some blk =>
      base64_decode_neon_loop B (writeBlock out (12 * i) 12 blk) (i + 1) fuel

/-- base64_decode_neon: decodes full 16-char blocks until one aborts. -/
def base64_decode_neon (B : Nat → Nat) (in_len : Nat) (out : Nat → Nat) :
    Nat × (Nat → Nat) :=
  base64_decode_neon_loop B out 0 (in_len / 16)

/-! ## SVE intrinsics used by base64_encode_sve

The SVE vector length in bytes is the cached value vl; a uint8 vector has
vl bytes, a uint16 vector vl / 2 lanes. Predicates are Bool-valued lane
functions; all full-vector predicates (svptrue) are implicit in the ops. -/

/-- Models svld1_u8 with an all-true predicate. -/
def svld1_u8 (p : Nat → Nat) : Nat → Nat := fun i => p i % 256

/-- Models svtbl_u8: byte gather, indices at or beyond the vector length
produce 0. -/
def svtbl_u8 (vl : Nat) (v idx : Nat → Nat) : Nat → Nat :=
  fun i => if idx i % 256 < vl then v (idx i % 256) else 0

/-- Models svuzp1_u16 over vectors of nl 16-bit lanes: even lanes of a,
then even lanes of b. -/
def svuzp1_u16 (nl : Nat) (a b : Nat → Nat) : Nat → Nat :=
  fun j => if j < nl / 2 then a (2 * j) else b (2 * (j - nl / 2))

/-- Models svuzp2_u16: odd lanes of a, then odd lanes of b. -/
def svuzp2_u16 (nl : Nat) (a b : Nat → Nat) : Nat → Nat :=
  fun j => if j < nl / 2 then a (2 * j + 1) else b (2 * (j - nl / 2) + 1)

/-- Models svlsr_n_u16_x. -/
def svlsr_n_u16 (v : Nat → Nat) (n : Nat) : Nat → Nat := fun j => (v j % 65536) >>> n

/-- Models svand_n_u16_x. -/
def svand_n_u16 (v : Nat → Nat) (c : Nat) : Nat → Nat := fun j => v j &&& c

/-- Models svzip1_u16 over vectors of nl lanes: interleave the lower
halves of a and b. -/
def svzip1_u16 (a b : Nat → Nat) : Nat → Nat :=
  fun j => if j % 2 = 0 then a (j / 2) else b (j / 2)

/-- Models svzip2_u16 over vectors of nl lanes: interleave the upper halves. -/
def svzip2_u16 (nl : Nat) (a b : Nat → Nat) : Nat → Nat :=
  fun j => if j % 2 = 0 then a (nl / 2 + j / 2) else b (nl / 2 + j / 2)

/-- Models svuzp1_u8 over vectors of n bytes: even bytes of a, then of b. -/
def svuzp1_u8 (n : Nat) (a b : Nat → Nat) : Nat → Nat :=
  fun i => if i < n / 2 then a (2 * i) else b (2 * (i - n / 2))

/-- Models svzip1_u8 over vectors of n bytes. -/
def svzip1_u8 (a b : Nat → Nat) : Nat → Nat :=
  fun i => if i % 2 = 0 then a (i / 2) else b (i / 2)

/-- Models svdup_n_u8. -/
def svdup_n_u8 (c : Nat) : Nat → Nat := fun _ => c % 256

/-- Models svcmpge_n_u8 (unsigned). -/
def svcmpge_n_u8 (v : Nat → Nat) (c : Nat) : Nat → Bool := fun i => c ≤ v i % 256

/-- Models svcmpeq_n_u8. -/
def svcmpeq_n_u8 (v : Nat → Nat) (c : Nat) : Nat → Bool := fun i => v i % 256 == c

/-- Models svadd_u8_m: merging add, inactive lanes keep the first operand. -/
def svadd_u8_m (pred : Nat → Bool) (a b : Nat → Nat) : Nat → Nat :=
  fun i => if pred i then (a i + b i) % 256 else a i

/-- Models svsub_u8_m: merging subtract. -/
def svsub_u8_m (pred : Nat → Bool) (a b : Nat → Nat) : Nat → Nat :=
  fun i => if pred i then (a i % 256 + 256 - b i % 256) % 256 else a i

/-- Models svadd_u8_x with an all-true predicate. -/
def svadd_u8_x (a b : Nat → Nat) : Nat → Nat := fun i => (a i + b i) % 256

/-! ## SVE encode kernel (base64_encode_sve) -/

/-- The shuf_data buffer generated at the top of base64_encode_sve:
for triplet t below min (vl / 4) 16, bytes 4t..4t+3 are
[3t+1, 3t, 3t+2, 3t+1]. Bytes past the generation loop are uninitialized
stack memory in the C code; they are modeled as 0 and are never loaded
for 32 <= vl <= 64, since the kernel loads exactly vl bytes. -/
def sve_shuf_data (vl : Nat) : Nat → Nat := fun b =>
  if b / 4 < min (vl / 4) 16 then 3 * (b / 4) + [1, 0, 2, 1].getD (b % 4) 0 else 0

/-- Sextet index bytes of one SVE encode iteration. The source also
computes a reorder_data table, an s01_hi vector and a zip of the two, but
every one of those results is dead: indices is unconditionally overwritten
with indices_lo before use. -/
def _sve_enc_indices (vl : Nat) (inp : Nat → Nat) : Nat → Nat :=
  let input := svld1_u8 inp
  let reshuffled := svtbl_u8 vl input (sve_shuf_data vl)
  let in16 := lane16 reshuffled
  let nl := vl / 2
  let even := svuzp1_u16 nl in16 in16
  let odd := svuzp2_u16 nl in16 in16
  let s0 := svlsr_n_u16 even 10
  let s1 := svand_n_u16 (svlsr_n_u16 even 4) 0x3F
  let s2 := svand_n_u16 (svlsr_n_u16 odd 6) 0x3F
  let s3 := svand_n_u16 odd 0x3F
  let s01 := svzip1_u16 s0 s1
  let s23 := svzip1_u16 s2 s3
  let indices_lo := svuzp1_u8 vl (bytesOf16 s01) (bytesOf16 s23)
  let s01_hi := svuzp1_u8 vl (bytesOf16 (svzip2_u16 nl s0 s1))
    (bytesOf16 (svzip2_u16 nl s2 s3))
  let _indices_dead := svzip1_u8 indices_lo s01_hi
  indices_lo

/-- Arithmetic ASCII mapping of the SVE encode kernel (same offsets as the
NEON kernel, expressed with merging predicated adds and subtracts). -/
def _sve_enc_ascii (indices : Nat → Nat) : Nat → Nat :=
  let offset0 := svdup_n_u8 65
  let ge26 := svcmpge_n_u8 indices 26
  let offset1 := svadd_u8_m ge26 offset0 (svdup_n_u8 6)
  let ge52 := svcmpge_n_u8 indices 52
  let offset2 := svsub_u8_m ge52 offset1 (svdup_n_u8 75)
  let eq62 := svcmpeq_n_u8 indices 62
  let offset3 := svsub_u8_m eq62 offset2 (svdup_n_u8 15)
  let eq63 := svcmpeq_n_u8 indices 63
  let offset := svsub_u8_m eq63 offset3 (svdup_n_u8 12)
  svadd_u8_x indices offset

/-- One SVE encode iteration: vl output characters from vl / 4 * 3 input
bytes. -/
def _sve_encode_iter (vl : Nat) (inp : Nat → Nat) : Nat → Nat :=
  _sve_enc_ascii (_sve_enc_indices vl inp)

/-- The iteration loop of base64_encode_sve after the given number of
iterations. -/
def base64_encode_sve_loop (vl : Nat) (B out : Nat → Nat) : Nat → Nat → Nat
  | 0 => out
  | i + 1 =>
    writeBlock (base64_encode_sve_loop vl B out i) (vl * i) vl
      (_sve_encode_iter vl (fun t => B (vl / 4 * 3 * i + t)))

/-- base64_encode_sve with the cached vector length vl: returns 0 bytes
processed when vl < 32 (fall back to NEON), otherwise processes
in_len / (vl / 4 * 3) full iterations. -/
def base64_encode_sve (vl : Nat) (B : Nat → Nat) (in_len : Nat) (out : Nat → Nat) :
    Nat × (Nat → Nat) :=
  if vl < 32 then (0, out)
  else
    let bytes_per_iter := vl / 4 * 3
    let n_iters := in_len / bytes_per_iter
    (n_iters * bytes_per_iter, base64_encode_sve_loop vl B out n_iters)

/-! ## CPU capability detection -/

/-- The _BASE64_CPU_UNKNOWN enumerator. -/
def _BASE64_CPU_UNKNOWN : Nat := 0

/-- The _BASE64_CPU_NO_AVX512 enumerator. -/
def _BASE64_CPU_NO_AVX512 : Nat := 1

/-- The _BASE64_CPU_HAS_AVX512 enumerator. -/
def _BASE64_CPU_HAS_AVX512 : Nat := 2

/-- The hardware answers the detector can observe: the CPUID leaf-0 EAX
and leaf-7 ECX registers on x86-64, the AT_HWCAP auxval word and the
svcntb vector length on ARM64. Fixed for the lifetime of a process. -/
structure CpuEnv where
  cpuid0_eax : Nat
  cpuid7_ecx : Nat
  hwcap : Nat
  svcntb : Nat

/-- HWCAP_SVE is bit 22 of AT_HWCAP. -/
def HWCAP_SVE : Nat := 2 ^ 22

/-- Initial value of the process-wide _base64_cpu_features variable. -/
def _base64_cpu_features_start : Nat := _BASE64_CPU_UNKNOWN

/-- Initial value of the process-wide _base64_sve_vl variable. -/
def _base64_sve_vl_start : Nat := 0

/-- The x86-64 _base64_init_cpu_features as a transition on the
_base64_cpu_features state: a no-op unless the state is still UNKNOWN,
otherwise CPUID leaf 7 ECX bit 1 decides HAS versus NO. -/
def _base64_init_cpu_features_x86 (env : CpuEnv) (features : Nat) : Nat :=
  if features ≠ _BASE64_CPU_UNKNOWN then features
  else if 7 ≤ env.cpuid0_eax ∧ (env.cpuid7_ecx >>> 1) &&& 1 = 1 then
    _BASE64_CPU_HAS_AVX512
  else _BASE64_CPU_NO_AVX512

/-- The ARM64 SVE _base64_init_cpu_features as a transition on the
_base64_sve_vl state: a no-op unless the state is still 0, otherwise the
vector length is cached when HWCAP reports SVE. -/
def _base64_init_cpu_features_arm (env : CpuEnv) (sve_vl : Nat) : Nat :=
  if sve_vl ≠ 0 then sve_vl
  else if env.hwcap &&& HWCAP_SVE ≠ 0 then env.svcntb
  else sve_vl

/-- base64_has_avx512vbmi: pure read of the cached feature state. -/
def base64_has_avx512vbmi (features : Nat) : Bool :=
  features == _BASE64_CPU_HAS_AVX512

/-- base64_has_sve256: pure read of the cached SVE vector length. -/
def base64_has_sve256 (sve_vl : Nat) : Bool :=
  decide (32 ≤ sve_vl)

end B64

namespace B64

/-! ## Generic lane lemmas -/

lemma bytesOf16_at_even (f : Nat → Nat) (j : Nat) : bytesOf16 f (2 * j) = f j % 256 := by
  have h1 : 2 * j / 2 = j := by omega
  have h2 : 2 * j % 2 = 0 := by omega
  simp [bytesOf16, h1, h2]

lemma bytesOf16_at_odd (f : Nat → Nat) (j : Nat) : bytesOf16 f (2 * j + 1) = f j / 256 % 256 := by
  have h1 : (2 * j + 1) / 2 = j := by omega
  have h2 : (2 * j + 1) % 2 = 1 := by omega
  simp [bytesOf16, h1, h2]

lemma lane16_at_even (v : Nat → Nat) (n : Nat) :
    lane16 v (2 * n) = v (4 * n) + 256 * v (4 * n + 1) := by
  have h1 : 2 * (2 * n) = 4 * n := by ring
  simp [lane16, h1]

lemma lane16_at_odd (v : Nat → Nat) (n : Nat) :
    lane16 v (2 * n + 1) = v (4 * n + 2) + 256 * v (4 * n + 3) := by
  have h1 : 2 * (2 * n + 1) = 4 * n + 2 := by ring
  have h2 : 2 * (2 * n + 1) + 1 = 4 * n + 3 := by ring
  simp [lane16, h1, h2]

lemma lane16_bytesOf16 (f : Nat → Nat) (j : Nat) :
    lane16 (bytesOf16 f) j = f j % 65536 := by
  have := bytesOf16_at_even f j
  have := bytesOf16_at_odd f j
  simp only [lane16, ← two_mul] at *
  omega

/-! ## Byte mask lemmas -/

set_option maxRecDepth 4000 in
lemma and_252 : ∀ b < 256, b &&& 252 = b / 4 * 4 := by decide

set_option maxRecDepth 4000 in
lemma and_240 : ∀ b < 256, b &&& 240 = b / 16 * 16 := by decide

set_option maxRecDepth 4000 in
lemma and_15 : ∀ b < 256, b &&& 15 = b % 16 := by decide

set_option maxRecDepth 4000 in
lemma and_3 : ∀ b < 256, b &&& 3 = b % 4 := by decide

set_option maxRecDepth 4000 in
lemma and_192 : ∀ b < 256, b &&& 192 = b / 64 * 64 := by decide

set_option maxRecDepth 4000 in
lemma and_63 : ∀ b < 256, b &&& 63 = b % 64 := by decide

/-! ## Table index lemmas -/

set_option maxRecDepth 4000 in
lemma shuf_input_spec : ∀ n < 16,
    shuf_input.getD (4 * n) 0 = 3 * n + 1 ∧ shuf_input.getD (4 * n + 1) 0 = 3 * n ∧
    shuf_input.getD (4 * n + 2) 0 = 3 * n + 2 ∧ shuf_input.getD (4 * n + 3) 0 = 3 * n + 1 := by
  decide

/-! ## AVX-512 encode byte lemmas -/

lemma avx_trip_byte (B : Nat → Nat) (n : Nat) (hn : n < 16) :
    _avx512_enc_triplets B (4 * n) = B (3 * n + 1) % 256 ∧
    _avx512_enc_triplets B (4 * n + 1) = B (3 * n) % 256 ∧
    _avx512_enc_triplets B (4 * n + 2) = B (3 * n + 2) % 256 ∧
    _avx512_enc_triplets B (4 * n + 3) = B (3 * n + 1) % 256 := by
  obtain ⟨hs0, hs1, hs2, hs3⟩ := shuf_input_spec n hn
  refine ⟨?_, ?_, ?_, ?_⟩
  · simp only [_avx512_enc_triplets, permutexvar_epi8, loadu_si512]
    rw [hs0, Nat.mod_eq_of_lt (show 3 * n + 1 < 64 by omega)]
  · simp only [_avx512_enc_triplets, permutexvar_epi8, loadu_si512]
    rw [hs1, Nat.mod_eq_of_lt (show 3 * n < 64 by omega)]
  · simp only [_avx512_enc_triplets, permutexvar_epi8, loadu_si512]
    rw [hs2, Nat.mod_eq_of_lt (show 3 * n + 2 < 64 by omega)]
  · simp only [_avx512_enc_triplets, permutexvar_epi8, loadu_si512]
    rw [hs3, Nat.mod_eq_of_lt (show 3 * n + 1 < 64 by omega)]

lemma avx_t0_byte0 (B : Nat → Nat) (n : Nat) (hn : n < 16) :
    mulhi_epu16 (vand512 (_avx512_enc_triplets B) (set1_epi32 0x0FC0FC00))
      (set1_epi32 0x04000040) (4 * n) = B (3 * n) % 256 / 4 := by
  obtain ⟨ht0, ht1, ht2, ht3⟩ := avx_trip_byte B n hn
  have hb0 : B (3 * n) % 256 < 256 := Nat.mod_lt _ (by norm_num)
  have e4 : 4 * n = 2 * (2 * n) := by ring
  rw [mulhi_epu16, e4, bytesOf16_at_even, lane16_at_even, lane16_at_even]
  simp only [vand512, set1_epi32, Nat.mul_add_mod, Nat.mul_mod_right]
  norm_num [Nat.shiftRight_eq_div_pow]
  rw [ht1, and_252 _ hb0]
  omega

lemma avx_t1_byte0 (B : Nat → Nat) (n : Nat) (hn : n < 16) :
    mullo_epi16 (vand512 (_avx512_enc_triplets B) (set1_epi32 0x003F03F0))
      (set1_epi32 0x01000010) (4 * n) = 0 := by
  obtain ⟨ht0, ht1, ht2, ht3⟩ := avx_trip_byte B n hn
  have hb0 : B (3 * n) % 256 < 256 := Nat.mod_lt _ (by norm_num)
  have hb1 : B (3 * n + 1) % 256 < 256 := Nat.mod_lt _ (by norm_num)
  have e4 : 4 * n = 2 * (2 * n) := by ring
  rw [mullo_epi16, e4, bytesOf16_at_even, lane16_at_even, lane16_at_even]
  simp only [vand512, set1_epi32, Nat.mul_add_mod, Nat.mul_mod_right]
  norm_num [Nat.shiftRight_eq_div_pow]
  rw [ht0, ht1, and_240 _ hb1, and_3 _ hb0]
  omega

lemma avx_t0_byte1 (B : Nat → Nat) (n : Nat) (hn : n < 16) :
    mulhi_epu16 (vand512 (_avx512_enc_triplets B) (set1_epi32 0x0FC0FC00))
      (set1_epi32 0x04000040) (4 * n + 1) = 0 := by
  obtain ⟨ht0, ht1, ht2, ht3⟩ := avx_trip_byte B n hn
  have hb0 : B (3 * n) % 256 < 256 := Nat.mod_lt _ (by norm_num)
  have e4 : 4 * n + 1 = 2 * (2 * n) + 1 := by ring
  rw [mulhi_epu16, e4, bytesOf16_at_odd, lane16_at_even, lane16_at_even]
  simp only [vand512, set1_epi32, Nat.mul_add_mod, Nat.mul_mod_right]
  norm_num [Nat.shiftRight_eq_div_pow]
  rw [ht1, and_252 _ hb0]
  omega

lemma avx_t1_byte1 (B : Nat → Nat) (n : Nat) (hn : n < 16) :
    mullo_epi16 (vand512 (_avx512_enc_triplets B) (set1_epi32 0x003F03F0))
      (set1_epi32 0x01000010) (4 * n + 1) =
      B (3 * n) % 256 % 4 * 16 + B (3 * n + 1) % 256 / 16 := by
  obtain ⟨ht0, ht1, ht2, ht3⟩ := avx_trip_byte B n hn
  have hb0 : B (3 * n) % 256 < 256 := Nat.mod_lt _ (by norm_num)
  have hb1 : B (3 * n + 1) % 256 < 256 := Nat.mod_lt _ (by norm_num)
  have e4 : 4 * n + 1 = 2 * (2 * n) + 1 := by ring
  rw [mullo_epi16, e4, bytesOf16_at_odd, lane16_at_even, lane16_at_even]
  simp only [vand512, set1_epi32, Nat.mul_add_mod, Nat.mul_mod_right]
  norm_num [Nat.shiftRight_eq_div_pow]
  rw [ht0, ht1, and_240 _ hb1, and_3 _ hb0]
  omega

lemma avx_t0_byte2 (B : Nat → Nat) (n : Nat) (hn : n < 16) :
    mulhi_epu16 (vand512 (_avx512_enc_triplets B) (set1_epi32 0x0FC0FC00))
      (set1_epi32 0x04000040) (4 * n + 2) =
      B (3 * n + 1) % 256 % 16 * 4 + B (3 * n + 2) % 256 / 64 := by
  obtain ⟨ht0, ht1, ht2, ht3⟩ := avx_trip_byte B n hn
  have hb1 : B (3 * n + 1) % 256 < 256 := Nat.mod_lt _ (by norm_num)
  have hb2 : B (3 * n + 2) % 256 < 256 := Nat.mod_lt _ (by norm_num)
  have e4 : 4 * n + 2 = 2 * (2 * n + 1) := by ring
  rw [mulhi_epu16, e4, bytesOf16_at_even, lane16_at_odd, lane16_at_odd]
  simp only [vand512, set1_epi32, Nat.mul_add_mod, Nat.mul_mod_right]
  norm_num [Nat.shiftRight_eq_div_pow]
  rw [ht2, ht3, and_192 _ hb2, and_15 _ hb1]
  omega

lemma avx_t1_byte2 (B : Nat → Nat) (n : Nat) (hn : n < 16) :
    mullo_epi16 (vand512 (_avx512_enc_triplets B) (set1_epi32 0x003F03F0))
      (set1_epi32 0x01000010) (4 * n + 2) = 0 := by
  obtain ⟨ht0, ht1, ht2, ht3⟩ := avx_trip_byte B n hn
  have hb2 : B (3 * n + 2) % 256 < 256 := Nat.mod_lt _ (by norm_num)
  have e4 : 4 * n + 2 = 2 * (2 * n + 1) := by ring
  rw [mullo_epi16, e4, bytesOf16_at_even, lane16_at_odd, lane16_at_odd]
  simp only [vand512, set1_epi32, Nat.mul_add_mod, Nat.mul_mod_right]
  norm_num [Nat.shiftRight_eq_div_pow]

lemma avx_t0_byte3 (B : Nat → Nat) (n : Nat) (hn : n < 16) :
    mulhi_epu16 (vand512 (_avx512_enc_triplets B) (set1_epi32 0x0FC0FC00))
      (set1_epi32 0x04000040) (4 * n + 3) = 0 := by
  obtain ⟨ht0, ht1, ht2, ht3⟩ := avx_trip_byte B n hn
  have hb1 : B (3 * n + 1) % 256 < 256 := Nat.mod_lt _ (by norm_num)
  have hb2 : B (3 * n + 2) % 256 < 256 := Nat.mod_lt _ (by norm_num)
  have e4 : 4 * n + 3 = 2 * (2 * n + 1) + 1 := by ring
  rw [mulhi_epu16, e4, bytesOf16_at_odd, lane16_at_odd, lane16_at_odd]
  simp only [vand512, set1_epi32, Nat.mul_add_mod, Nat.mul_mod_right]
  norm_num [Nat.shiftRight_eq_div_pow]
  rw [ht2, ht3, and_192 _ hb2, and_15 _ hb1]
  omega

lemma avx_t1_byte3 (B : Nat → Nat) (n : Nat) (hn : n < 16) :
    mullo_epi16 (vand512 (_avx512_enc_triplets B) (set1_epi32 0x003F03F0))
      (set1_epi32 0x01000010) (4 * n + 3) = B (3 * n + 2) % 256 % 64 := by
  obtain ⟨ht0, ht1, ht2, ht3⟩ := avx_trip_byte B n hn
  have hb2 : B (3 * n + 2) % 256 < 256 := Nat.mod_lt _ (by norm_num)
  have e4 : 4 * n + 3 = 2 * (2 * n + 1) + 1 := by ring
  rw [mullo_epi16, e4, bytesOf16_at_odd, lane16_at_odd, lane16_at_odd]
  simp only [vand512, set1_epi32, Nat.mul_add_mod, Nat.mul_mod_right]
  norm_num [Nat.shiftRight_eq_div_pow]
  rw [ht2, and_63 _ hb2]
  omega

/-! ## Reference sextet position lemmas -/

lemma refSextet_byte0 (B : Nat → Nat) (n : Nat) :
    refSextet B (4 * n) = B (3 * n) % 256 / 4 := by
  have h4 : 4 * n / 4 = n := by omega
  have hm : 4 * n % 4 = 0 := by omega
  simp only [refSextet, h4, hm]
  norm_num [Nat.shiftRight_eq_div_pow]
  omega

lemma refSextet_byte1 (B : Nat → Nat) (n : Nat) :
    refSextet B (4 * n + 1) = B (3 * n) % 256 % 4 * 16 + B (3 * n + 1) % 256 / 16 := by
  have h4 : (4 * n + 1) / 4 = n := by omega
  have hm : (4 * n + 1) % 4 = 1 := by omega
  simp only [refSextet, h4, hm]
  norm_num [Nat.shiftRight_eq_div_pow]
  omega

lemma refSextet_byte2 (B : Nat → Nat) (n : Nat) :
    refSextet B (4 * n + 2) = B (3 * n + 1) % 256 % 16 * 4 + B (3 * n + 2) % 256 / 64 := by
  have h4 : (4 * n + 2) / 4 = n := by omega
  have hm : (4 * n + 2) % 4 = 2 := by omega
  simp only [refSextet, h4, hm]
  norm_num [Nat.shiftRight_eq_div_pow]
  omega

lemma refSextet_byte3 (B : Nat → Nat) (n : Nat) :
    refSextet B (4 * n + 3) = B (3 * n + 2) % 256 % 64 := by
  have h4 : (4 * n + 3) / 4 = n := by omega
  have hm : (4 * n + 3) % 4 = 3 := by omega
  simp only [refSextet, h4, hm]
  norm_num [Nat.shiftRight_eq_div_pow]
  omega

lemma refSextet_lt (B : Nat → Nat) (i : Nat) : refSextet B i < 64 :=
  Nat.mod_lt _ (by norm_num)

/-! ## The encode kernel agrees with the reference sextets -/

lemma avx_indices_eq (B : Nat → Nat) (i : Nat) (hi : i < 64) :
    _avx512_enc_indices B i = refSextet B i := by
  obtain ⟨n, k, hn, hk, rfl⟩ : ∃ n k, n < 16 ∧ k < 4 ∧ i = 4 * n + k :=
    ⟨i / 4, i % 4, by omega, by omega, by omega⟩
  interval_cases k
  · simpa only [Nat.add_zero] using by
      simp only [_avx512_enc_indices, vor512]
      rw [avx_t0_byte0 B n hn, avx_t1_byte0 B n hn, Nat.or_zero, refSextet_byte0]
  · simp only [_avx512_enc_indices, vor512]
    rw [avx_t0_byte1 B n hn, avx_t1_byte1 B n hn, Nat.zero_or, refSextet_byte1]
  · simp only [_avx512_enc_indices, vor512]
    rw [avx_t0_byte2 B n hn, avx_t1_byte2 B n hn, Nat.or_zero, refSextet_byte2]
  · simp only [_avx512_enc_indices, vor512]
    rw [avx_t0_byte3 B n hn, avx_t1_byte3 B n hn, Nat.zero_or, refSextet_byte3]

lemma encode48_eq_scalar (B : Nat → Nat) (i : Nat) (hi : i < 64) :
    base64_encode_48_avx512 B i = scalar_encode_char B i := by
  simp only [base64_encode_48_avx512, permutexvar_epi8, scalar_encode_char]
  rw [avx_indices_eq B i hi, Nat.mod_eq_of_lt (refSextet_lt B i)]

end B64

namespace B64

/-! ## Signedness helper lemmas -/

lemma toSigned8_le (x : Nat) : toSigned8 x ≤ 127 := by
  unfold toSigned8; split <;> omega

lemma intByte_of_lt (a : Nat) (ha : a < 256) : intByte (a : Int) = a := by
  unfold intByte; omega

lemma toSigned16_of_lt (x : Nat) (h : x < 32768) : toSigned16 x = x := by
  unfold toSigned16
  split <;> omega

lemma sat16_of (x : Int) (h0 : -32768 ≤ x) (h1 : x ≤ 32767) : sat16 x = x := by
  unfold sat16
  rw [min_eq_right h1, max_eq_right h0]

lemma toUnsigned16_of (x : Int) (h0 : 0 ≤ x) (h1 : x < 65536) : toUnsigned16 x = x.toNat := by
  unfold toUnsigned16; omega

/-! ## Decode table lemmas -/

set_option maxRecDepth 4000 in
lemma b64_table_lt128 : ∀ s < 64, _b64_table.getD s 0 < 128 := by decide

set_option maxRecDepth 4000 in
lemma b64_table_ne61 : ∀ s < 64, _b64_table.getD s 0 ≠ 61 := by decide

set_option maxRecDepth 4000 in
lemma b64_decode_encode_table : ∀ s < 64,
    _b64_decode_table.getD (_b64_table.getD s 0) (-1) = (s : Int) := by decide

set_option maxRecDepth 4000 in
lemma pack_shuf_spec : ∀ n < 16,
    pack_shuf.getD (3 * n) 0 = 4 * n + 2 ∧ pack_shuf.getD (3 * n + 1) 0 = 4 * n + 1 ∧
    pack_shuf.getD (3 * n + 2) 0 = 4 * n := by decide

lemma dec_values_pointwise (input : Nat → Nat) (i : Nat) :
    _avx512_dec_values input i = _avx512_dec_values (fun _ => input i) 0 := rfl

set_option maxRecDepth 4000 in
lemma dec_values_of_lt128 : ∀ c < 128,
    _avx512_dec_values (fun _ => c) 0 = _b64_decode_table.getD c (-1) := by decide

end B64

namespace B64

lemma bytesOf32_at0 (f : Nat → Nat) (n : Nat) : bytesOf32 f (4 * n) = f n % 256 := by
  have h1 : 4 * n / 4 = n := by omega
  have h2 : 4 * n % 4 = 0 := by omega
  simp [bytesOf32, h1, h2]

lemma bytesOf32_at (f : Nat → Nat) (n k : Nat) (hk : k < 4) :
    bytesOf32 f (4 * n + k) = f n / 256 ^ k % 256 := by
  have h1 : (4 * n + k) / 4 = n := by omega
  have h2 : (4 * n + k) % 4 = k := by omega
  simp [bytesOf32, h1, h2]

lemma maddubs_lane_of_sextets (v : Nat → Int) (n : Nat)
    (x y : Nat) (hx : x < 64) (hy : y < 64)
    (hvx : v (2 * n) = x) (hvy : v (2 * n + 1) = y) :
    lane16 (maddubs_epi16 (fun i => intByte (v i)) (set1_epi32 0x01400140)) n
      = 64 * x + y := by
  rw [maddubs_epi16, lane16_bytesOf16]
  simp only [hvx, hvy, intByte_of_lt x (by omega), intByte_of_lt y (by omega)]
  have hc0 : set1_epi32 0x01400140 (2 * n) = 64 := by
    have h : 2 * n % 4 = 0 ∨ 2 * n % 4 = 2 := by omega
    rcases h with h | h <;> simp [set1_epi32, h, Nat.shiftRight_eq_div_pow]
  have hc1 : set1_epi32 0x01400140 (2 * n + 1) = 1 := by
    have h : (2 * n + 1) % 4 = 1 ∨ (2 * n + 1) % 4 = 3 := by omega
    rcases h with h | h <;> simp [set1_epi32, h, Nat.shiftRight_eq_div_pow]
  rw [hc0, hc1]
  have hs64 : toSigned8 64 = 64 := by decide
  have hs1 : toSigned8 1 = 1 := by decide
  rw [hs64, hs1, Nat.mod_eq_of_lt (show x < 256 by omega),
    Nat.mod_eq_of_lt (show y < 256 by omega)]
  rw [sat16_of _ (by omega) (by omega)]
  rw [toUnsigned16_of _ (by omega) (by omega)]
  omega

lemma dec_merge2_bytes (v : Nat → Int) (n : Nat)
    (a b c d : Nat) (ha : a < 64) (hb : b < 64) (hc : c < 64) (hd : d < 64)
    (hva : v (4 * n) = a) (hvb : v (4 * n + 1) = b)
    (hvc : v (4 * n + 2) = c) (hvd : v (4 * n + 3) = d) :
    _avx512_dec_merge2 v (4 * n) = c % 4 * 64 + d ∧
    _avx512_dec_merge2 v (4 * n + 1) = b % 16 * 16 + c / 4 ∧
    _avx512_dec_merge2 v (4 * n + 2) = a * 4 + b / 16 := by
  have hm0 : lane16 (maddubs_epi16 (fun i => intByte (v i)) (set1_epi32 0x01400140)) (2 * n)
      = 64 * a + b :=
    maddubs_lane_of_sextets v (2 * n) a b ha hb
      (by rw [show 2 * (2 * n) = 4 * n from by ring]; exact hva)
      (by rw [show 2 * (2 * n) + 1 = 4 * n + 1 from by ring]; exact hvb)
  have hm1 : lane16 (maddubs_epi16 (fun i => intByte (v i)) (set1_epi32 0x01400140)) (2 * n + 1)
      = 64 * c + d :=
    maddubs_lane_of_sextets v (2 * n + 1) c d hc hd
      (by rw [show 2 * (2 * n + 1) = 4 * n + 2 from by ring]; exact hvc)
      (by rw [show 2 * (2 * n + 1) + 1 = 4 * n + 3 from by ring]; exact hvd)
  have hcm0 : lane16 (set1_epi32 0x00011000) (2 * n) = 4096 := by
    rw [lane16_at_even]
    simp [set1_epi32, Nat.mul_add_mod, Nat.mul_mod_right, Nat.shiftRight_eq_div_pow]
  have hcm1 : lane16 (set1_epi32 0x00011000) (2 * n + 1) = 1 := by
    rw [lane16_at_odd]
    simp [set1_epi32, Nat.mul_add_mod, Nat.mul_mod_right, Nat.shiftRight_eq_div_pow]
  have hcore : _avx512_dec_merge2 v = bytesOf32 (fun k =>
      ((toSigned16 (lane16 (maddubs_epi16 (fun i => intByte (v i)) (set1_epi32 0x01400140)) (2 * k)) *
          toSigned16 (lane16 (set1_epi32 0x00011000) (2 * k)) +
        toSigned16 (lane16 (maddubs_epi16 (fun i => intByte (v i)) (set1_epi32 0x01400140)) (2 * k + 1)) *
          toSigned16 (lane16 (set1_epi32 0x00011000) (2 * k + 1))) % (2 ^ 32 : Int)).toNat) := rfl
  have hfn :
      ((toSigned16 (lane16 (maddubs_epi16 (fun i => intByte (v i)) (set1_epi32 0x01400140)) (2 * n)) *
          toSigned16 (lane16 (set1_epi32 0x00011000) (2 * n)) +
        toSigned16 (lane16 (maddubs_epi16 (fun i => intByte (v i)) (set1_epi32 0x01400140)) (2 * n + 1)) *
          toSigned16 (lane16 (set1_epi32 0x00011000) (2 * n + 1))) % (2 ^ 32 : Int)).toNat
      = 4096 * (64 * a + b) + (64 * c + d) := by
    rw [hm0, hm1, hcm0, hcm1, toSigned16_of_lt _ (by omega), toSigned16_of_lt _ (by norm_num),
      toSigned16_of_lt _ (by omega), toSigned16_of_lt _ (by norm_num)]
    omega
  refine ⟨?_, ?_, ?_⟩
  · rw [hcore, bytesOf32_at0, hfn]
    omega
  · rw [hcore, bytesOf32_at _ n 1 (by norm_num), hfn]
    norm_num
    omega
  · rw [hcore, bytesOf32_at _ n 2 (by norm_num), hfn]
    norm_num
    omega

end B64

namespace B64

lemma chars_of_encode (B : Nat → Nat) (i : Nat) (hi : i < 64) :
    base64_encode_48_avx512 B i = _b64_table.getD (refSextet B i) 0 :=
  encode48_eq_scalar B i hi

lemma chars_of_encode_lt128 (B : Nat → Nat) (i : Nat) (hi : i < 64) :
    base64_encode_48_avx512 B i < 128 := by
  rw [chars_of_encode B i hi]
  exact b64_table_lt128 _ (refSextet_lt B i)

lemma avx512_roundtrip_core (B : Nat → Nat) :
    ∃ C, base64_decode_64_avx512 (base64_encode_48_avx512 B) = some C ∧
      ∀ i < 48, C i = B i % 256 := by
  have hload : ∀ i, i < 64 →
      loadu_si512 (base64_encode_48_avx512 B) i = base64_encode_48_avx512 B i := by
    intro i hi
    exact Nat.mod_eq_of_lt (by have := chars_of_encode_lt128 B i hi; omega)
  have hpad : ((List.range 64).any fun i =>
      loadu_si512 (base64_encode_48_avx512 B) i == 61) = false := by
    rw [List.any_eq_false]
    intro i hi
    have hi64 := List.mem_range.mp hi
    rw [hload i hi64]
    simp only [beq_iff_eq]
    rw [chars_of_encode B i hi64]
    exact b64_table_ne61 _ (refSextet_lt B i)
  have hhigh : ((List.range 64).any fun i =>
      decide (127 < toSigned8 (loadu_si512 (base64_encode_48_avx512 B) i))) = false := by
    rw [List.any_eq_false]
    intro i _
    simp only [decide_eq_true_eq, not_lt]
    exact toSigned8_le _
  have hvals : ∀ i, i < 64 →
      _avx512_dec_values (loadu_si512 (base64_encode_48_avx512 B)) i = (refSextet B i : Int) := by
    intro i hi
    rw [dec_values_pointwise, hload i hi, chars_of_encode B i hi,
      dec_values_of_lt128 _ (b64_table_lt128 _ (refSextet_lt B i))]
    exact b64_decode_encode_table _ (refSextet_lt B i)
  have hinv : ((List.range 64).any fun i =>
      decide (_avx512_dec_values (loadu_si512 (base64_encode_48_avx512 B)) i < 0)) = false := by
    rw [List.any_eq_false]
    intro i hi
    have hi64 := List.mem_range.mp hi
    simp only [decide_eq_true_eq, not_lt]
    rw [hvals i hi64]
    exact Int.natCast_nonneg _
  refine ⟨permutexvar_epi8 (fun i => pack_shuf.getD i 0)
      (_avx512_dec_merge2 (_avx512_dec_values (loadu_si512 (base64_encode_48_avx512 B)))), ?_, ?_⟩
  · simp [base64_decode_64_avx512, hpad, hhigh, hinv]
  · intro o ho
    obtain ⟨n, j, hn, hj, rfl⟩ : ∃ n j, n < 16 ∧ j < 3 ∧ o = 3 * n + j :=
      ⟨o / 3, o % 3, by omega, by omega, by omega⟩
    obtain ⟨hp0, hp1, hp2⟩ := pack_shuf_spec n hn
    obtain ⟨hq0, hq1, hq2⟩ :=
      dec_merge2_bytes (_avx512_dec_values (loadu_si512 (base64_encode_48_avx512 B))) n
        (refSextet B (4 * n)) (refSextet B (4 * n + 1)) (refSextet B (4 * n + 2))
        (refSextet B (4 * n + 3))
        (refSextet_lt B _) (refSextet_lt B _) (refSextet_lt B _) (refSextet_lt B _)
        (hvals _ (by omega)) (hvals _ (by omega)) (hvals _ (by omega)) (hvals _ (by omega))
    interval_cases j
    · have e0 : 3 * n + 0 = 3 * n := by omega
      rw [e0]
      simp only [permutexvar_epi8]
      rw [hp0, Nat.mod_eq_of_lt (by omega), hq2,
        refSextet_byte0, refSextet_byte1]
      omega
    · simp only [permutexvar_epi8]
      rw [hp1, Nat.mod_eq_of_lt (by omega), hq1,
        refSextet_byte1, refSextet_byte2]
      omega
    · simp only [permutexvar_epi8]
      rw [hp2, Nat.mod_eq_of_lt (by omega), hq0,
        refSextet_byte2, refSextet_byte3]
      omega

end B64

namespace B64

lemma and63_mod (n : Nat) : n &&& 63 = n % 64 := by
  have h := Nat.and_pow_two_sub_one_eq_mod n 6
  norm_num at h
  exact h

set_option maxHeartbeats 2000000 in
lemma neon_indices_eq (B : Nat → Nat) (i : Nat) (hi : i < 16) :
    _neon_enc_indices B i = refSextet B i := by
  interval_cases i <;>
  · simp only [_neon_enc_indices, vld1q_u8, vqtbl1q_u8, lane16, vuzp1_u16, vuzp2_u16,
      vget_low_u16, vget_high_u16, vshr_n_u16, vand_u16, vdup_n_u16, vzip1_u16, vzip2_u16,
      vcombine_u16, vmovn_u16, vcombine_u8, neon_shuf_tbl, neon_reorder_tbl, refSextet]
    norm_num [Nat.shiftRight_eq_div_pow, and63_mod]
    omega

end B64

namespace B64

lemma neon_ascii_pointwise (idx : Nat → Nat) (i : Nat) :
    _neon_enc_ascii idx i = _neon_enc_ascii (fun _ => idx i) 0 := rfl

set_option maxRecDepth 4000 in
lemma neon_ascii_table : ∀ s < 64, _neon_enc_ascii (fun _ => s) 0 = _b64_table.getD s 0 := by
  decide

lemma encode12_eq_scalar (B : Nat → Nat) (i : Nat) (hi : i < 16) :
    base64_encode_12_neon B i = scalar_encode_char B i := by
  show _neon_enc_ascii (_neon_enc_indices B) i = _
  rw [neon_ascii_pointwise, neon_indices_eq B i hi,
    neon_ascii_table _ (refSextet_lt B i)]
  rfl

end B64

namespace B64

lemma encode_avx_loop_out (B out : Nat → Nat) (blocks i j : Nat)
    (hi : i < blocks) (hj : j < 64) :
    base64_encode_avx512vbmi_loop B out blocks (64 * i + j) =
      base64_encode_48_avx512 (fun t => B (48 * i + t)) j := by
  induction blocks with
  | zero => omega
  | succ b ih =>
    simp only [base64_encode_avx512vbmi_loop, writeBlock]
    by_cases h : i = b
    · subst h
      rw [if_pos ⟨by omega, by omega⟩]
      congr 1
      omega
    · rw [if_neg (by omega)]
      exact ih (by omega)

lemma encode_neon_loop_out (B out : Nat → Nat) (blocks i j : Nat)
    (hi : i < blocks) (hj : j < 16) :
    base64_encode_neon_loop B out blocks (16 * i + j) =
      base64_encode_12_neon (fun t => B (12 * i + t)) j := by
  induction blocks with
  | zero => omega
  | succ b ih =>
    simp only [base64_encode_neon_loop, writeBlock]
    by_cases h : i = b
    · subst h
      rw [if_pos ⟨by omega, by omega⟩]
      congr 1
      omega
    · rw [if_neg (by omega)]
      exact ih (by omega)

end B64

namespace B64

set_option maxRecDepth 10000 in
/-- C2: the claim states that every 64-character block containing a byte
with value at least 128 is aborted by base64_decode_64_avx512 before any
output. The code violates this: its ASCII check is the signed byte
comparison input > 127, which no byte can satisfy. At the concrete block
with byte 200 at position 0 and A elsewhere the kernel succeeds and decodes
byte 200 as sextet 7 (as if it were H), producing output byte 28. -/
theorem C2_high_byte_accepted :
    200 ≥ 128 ∧ (fun i => if i = 0 then 200 else 65) 0 = 200 ∧
    ((base64_decode_64_avx512 (fun i => if i = 0 then 200 else 65)).map fun C => C 0) =
      some 28 :=
  ⟨by decide, rfl, by decide⟩

set_option maxRecDepth 10000 in
/-- C4: the claim states that base64_decode_avx512vbmi never consumes past
the start of the 4-char group containing the first invalid character. The
byte 200 is not in the base64 alphabet, so for an input whose first
character is 200 the bound is 0; yet the driver returns 64 because the
kernel accepts the block (the signed >127 comparison cannot fire). -/
theorem C4_avx512_consumes_past_invalid :
    (∀ s < 64, _b64_table.getD s 0 ≠ 200) ∧
    (base64_decode_avx512vbmi (fun i => if i = 0 then 200 else 65) 64 (fun _ => 0)).1 = 64 :=
  ⟨by decide, by decide⟩

set_option maxRecDepth 10000 in
/-- C6: the claim states that with cached SVE vector length at least 32
the SVE encode output over the consumed bytes is byte-identical to the
scalar reference. At vector length 32 and the 24-byte input that is zero
except for byte 2 = 1 (one full iteration, 24 bytes consumed), the kernel
writes A (65) at output position 3 where the scalar reference writes B
(66): its index vector keeps the s0/s1 pairs of all triplets before the
s2/s3 pairs instead of output order. -/
theorem C6_sve_disagrees_with_scalar :
    (base64_encode_sve 32 (fun i => if i = 2 then 1 else 0) 24 (fun _ => 0)).1 = 24 ∧
    (base64_encode_sve 32 (fun i => if i = 2 then 1 else 0) 24 (fun _ => 0)).2 3 = 65 ∧
    scalar_encode_char (fun i => if i = 2 then 1 else 0) 3 = 66 :=
  ⟨by decide, by decide, by decide⟩

set_option maxRecDepth 10000 in
/-- C10: the claim states the two compiled-in copies of
base64_decode_64_avx512 compute the same function on blocks both accept.
On the all-valid block with B at position 3 and A elsewhere, the copy in
Modules/base64_simd.h writes [0, 0, 1] as its first output triplet while
the copy in src/unnamed/part_000 writes [1, 0, 0]: the pack_shuf of the
second copy extracts bytes [4n, 4n+1, 4n+2] instead of the reversed
[4n+2, 4n+1, 4n] its own comment specifies. -/
theorem C10_copies_disagree :
    ((base64_decode_64_avx512 (fun i => if i = 3 then 66 else 65)).map fun C =>
      [C 0, C 1, C 2]) = some [0, 0, 1] ∧
    ((base64_decode_64_avx512_copy2 (fun i => if i = 3 then 66 else 65)).map fun C =>
      [C 0, C 1, C 2]) = some [1, 0, 0] :=
  ⟨by decide, by decide⟩

end B64

namespace B64

/-- C1: for every 48-byte buffer B, decoding the AVX-512 encoding of B
with the AVX-512 decode kernel succeeds (the C function returns 48,
modeled by some) and yields exactly B back. -/
theorem C1_avx512_roundtrip (B : Nat → Nat) (hB : ∀ j < 48, B j < 256) :
    ∃ C, base64_decode_64_avx512 (base64_encode_48_avx512 B) = some C ∧
      ∀ i < 48, C i = B i := by
  obtain ⟨C, hC, hCi⟩ := avx512_roundtrip_core B
  exact ⟨C, hC, fun i hi => by rw [hCi i hi, Nat.mod_eq_of_lt (hB i hi)]⟩

set_option maxRecDepth 10000 in
theorem C1_witness :
    (∀ j < 48, (fun t => t * 5 % 256) j < 256) ∧
    ∃ C, base64_decode_64_avx512 (base64_encode_48_avx512 (fun t => t * 5 % 256)) = some C ∧
      ∀ i < 48, C i = (fun t => t * 5 % 256) i :=
  ⟨by decide, C1_avx512_roundtrip (fun t => t * 5 % 256) (by decide)⟩

/-- C3: every one of the 64 output characters of base64_encode_48_avx512
equals the scalar reference: the four 6-bit fields of each big-endian
packed 24-bit trio, looked up in the table A-Za-z0-9+/. In particular 48
zero bytes encode to 64 copies of A (see the witness). -/
theorem C3_avx512_encode_eq_scalar (B : Nat → Nat) (i : Nat) (hi : i < 64) :
    base64_encode_48_avx512 B i = scalar_encode_char B i :=
  encode48_eq_scalar B i hi

set_option maxRecDepth 10000 in
theorem C3_witness :
    base64_encode_48_avx512 (fun _ => 0) 0 = scalar_encode_char (fun _ => 0) 0 ∧
    base64_encode_48_avx512 (fun _ => 0) 0 = 65 :=
  ⟨C3_avx512_encode_eq_scalar (fun _ => 0) 0 (by decide), by decide⟩

/-- C5: every 12-byte block encodes under base64_encode_12_neon to the
same 16 characters as the scalar reference, and the arithmetic
index-to-ASCII stage sends sextets 0-25 to s+65, 26-51 to s+71, 52-61 to
s-4, 62 to 43 and 63 to 47. -/
theorem C5_neon_encode_eq_scalar :
    (∀ B : Nat → Nat, ∀ i < 16, base64_encode_12_neon B i = scalar_encode_char B i) ∧
    (∀ s < 64, _neon_enc_ascii (fun _ => s) 0 =
      (if s < 26 then s + 65 else if s < 52 then s + 71 else if s < 62 then s - 4
       else if s = 62 then 43 else 47)) := by
  constructor
  · exact fun B i hi => encode12_eq_scalar B i hi
  · decide

set_option maxRecDepth 10000 in
theorem C5_witness :
    base64_encode_12_neon (fun t => t * 21 % 256) 7 =
      scalar_encode_char (fun t => t * 21 % 256) 7 ∧
    _neon_enc_ascii (fun _ => 30) 0 = 101 :=
  ⟨C5_neon_encode_eq_scalar.1 (fun t => t * 21 % 256) 7 (by decide),
   C5_neon_encode_eq_scalar.2 30 (by decide)⟩

lemma x86_init_noop (env : CpuEnv) (f : Nat) (hf : f ≠ _BASE64_CPU_UNKNOWN) :
    _base64_init_cpu_features_x86 env f = f := by
  unfold _base64_init_cpu_features_x86
  exact if_pos hf

lemma x86_init_ne_unknown (env : CpuEnv) (f : Nat) :
    _base64_init_cpu_features_x86 env f ≠ _BASE64_CPU_UNKNOWN := by
  unfold _base64_init_cpu_features_x86 _BASE64_CPU_UNKNOWN _BASE64_CPU_NO_AVX512
    _BASE64_CPU_HAS_AVX512
  split
  · omega
  · split <;> norm_num

lemma x86_init_idem (env : CpuEnv) (f : Nat) :
    _base64_init_cpu_features_x86 env (_base64_init_cpu_features_x86 env f) =
      _base64_init_cpu_features_x86 env f :=
  x86_init_noop env _ (x86_init_ne_unknown env f)

lemma arm_init_noop (env : CpuEnv) (v : Nat) (hv : v ≠ 0) :
    _base64_init_cpu_features_arm env v = v := by
  unfold _base64_init_cpu_features_arm
  exact if_pos hv

lemma arm_init_idem (env : CpuEnv) (v : Nat) :
    _base64_init_cpu_features_arm env (_base64_init_cpu_features_arm env v) =
      _base64_init_cpu_features_arm env v := by
  by_cases hv : v ≠ 0
  · rw [arm_init_noop env v hv, arm_init_noop env v hv]
  · push_neg at hv
    subst hv
    by_cases hs : _base64_init_cpu_features_arm env 0 ≠ 0
    · rw [arm_init_noop env _ hs]
    · push_neg at hs
      rw [hs]
      exact hs

/-- C7: the capability state starts in the UNKNOWN state (0 for the SVE
vector length); the first detector call moves the x86 state to a terminal
non-UNKNOWN value and any later call with any hardware answers leaves a
non-UNKNOWN state unchanged; on both architectures a repeated call changes
nothing; the query functions base64_has_avx512vbmi and base64_has_sve256
are pure reads of the cached value. -/
theorem C7_capability_lifecycle (env env2 : CpuEnv) :
    _base64_cpu_features_start = _BASE64_CPU_UNKNOWN ∧
    _base64_sve_vl_start = 0 ∧
    _base64_init_cpu_features_x86 env _base64_cpu_features_start ≠ _BASE64_CPU_UNKNOWN ∧
    (∀ f, f ≠ _BASE64_CPU_UNKNOWN → _base64_init_cpu_features_x86 env2 f = f) ∧
    (∀ f, _base64_init_cpu_features_x86 env (_base64_init_cpu_features_x86 env f) =
      _base64_init_cpu_features_x86 env f) ∧
    (∀ v, _base64_init_cpu_features_arm env (_base64_init_cpu_features_arm env v) =
      _base64_init_cpu_features_arm env v) ∧
    (∀ f, base64_has_avx512vbmi f = (f == _BASE64_CPU_HAS_AVX512)) ∧
    (∀ v, base64_has_sve256 v = decide (32 ≤ v)) := by
  exact ⟨rfl, rfl, x86_init_ne_unknown env _, fun f hf => x86_init_noop env2 f hf,
    fun f => x86_init_idem env f, fun v => arm_init_idem env v,
    fun _ => rfl, fun _ => rfl⟩

theorem C7_witness :
    _base64_init_cpu_features_x86 ⟨7, 2, 0, 0⟩ 2 = 2 :=
  (C7_capability_lifecycle ⟨7, 2, 0, 0⟩ ⟨7, 2, 0, 0⟩).2.2.2.1 2 (by decide)

/-- C8: encode never fails for any input content: for every buffer and
length, base64_encode_avx512vbmi consumes exactly len / 48 * 48 bytes and
base64_encode_neon exactly len / 12 * 12 bytes, and every full block of
the output carries the corresponding block kernel result; no abort path
depends on the data. -/
theorem C8_encode_never_aborts (B out : Nat → Nat) (len : Nat) :
    (base64_encode_avx512vbmi B len out).1 = len / 48 * 48 ∧
    (base64_encode_neon B len out).1 = len / 12 * 12 ∧
    (∀ i < len / 48, ∀ j < 64,
      (base64_encode_avx512vbmi B len out).2 (64 * i + j) =
        base64_encode_48_avx512 (fun t => B (48 * i + t)) j) ∧
    (∀ i < len / 12, ∀ j < 16,
      (base64_encode_neon B len out).2 (16 * i + j) =
        base64_encode_12_neon (fun t => B (12 * i + t)) j) := by
  refine ⟨rfl, rfl, ?_, ?_⟩
  · exact fun i hi j hj => encode_avx_loop_out B out (len / 48) i j hi hj
  · exact fun i hi j hj => encode_neon_loop_out B out (len / 12) i j hi hj

theorem C8_witness :
    (base64_encode_avx512vbmi (fun _ => 0) 100 (fun _ => 0)).1 = 100 / 48 * 48 ∧
    (base64_encode_avx512vbmi (fun _ => 0) 100 (fun _ => 0)).2 (64 * 1 + 0) =
      base64_encode_48_avx512 (fun t => (fun _ => 0 : Nat → Nat) (48 * 1 + t)) 0 :=
  ⟨(C8_encode_never_aborts (fun _ => 0) (fun _ => 0) 100).1,
   (C8_encode_never_aborts (fun _ => 0) (fun _ => 0) 100).2.2.1 1 (by decide) 0 (by decide)⟩

end B64
